import Mathlib

/-!
Verification development for the liquidity-layer core: the governance
`propose` operation (matching-engine program) and the `redeem_fast_fill`
operation (token-router program), shallowly embedded from the Rust source.

Machine integers are modelled as `Nat`; the two unchecked `u64` additions in
`propose` are modelled as panicking on overflow (the workspace builds with
overflow checks), and `saturating_sub` is `Nat` truncated subtraction.
External collaborators (the matching-engine finalize CPI, the attestation
payload parser, rent, the realloc primitive) are parameters of the
environment, specified only at their interfaces.
-/

namespace LiquidityLayer

/-- Modelled from the spec: `FillType` variants `{Unset, FastFill, ...}` from the
token-router state module (not shown in the excerpt). A third variant stands
for the elided ones, so the wildcard arm of `redeem_fast_fill` is meaningful. -/
inductive FillType where
  | Unset
  | WormholeCctpDeposit
  | FastFill
deriving DecidableEq

/-- Modelled from the spec: the `PreparedFillInfo` header of a prepared-fill
record (digest, two bump seeds, redeemer, preparer, fill-type tag, source
chain, order sender). Addresses and hashes are byte lists / numbers. -/
structure PreparedFillInfo where
  vaa_hash : List Nat
  bump : Nat
  prepared_custody_token_bump : Nat
  redeemer : Nat
  prepared_by : Nat
  fill_type : FillType
  source_chain : Nat
  order_sender : List Nat
deriving DecidableEq

/-- Modelled from the spec: a `PreparedFill` record is the fixed header plus the
variable-length redeemer message bytes. -/
structure PreparedFill where
  info : PreparedFillInfo
  redeemer_message : List Nat
deriving DecidableEq

/-- Modelled from the spec: the fixed header size of a persisted `PreparedFill`
(digest 32B, two 1B bump fields, 32B redeemer, 32B payer, 1B fill-type tag,
2B source-chain id, 32B order-sender). -/
def PreparedFill.base_size : Nat := 32 + 1 + 1 + 32 + 32 + 1 + 2 + 32

/-- Modelled from the spec: `PreparedFill::compute_size` — required record size
for a given redeemer-message length: fixed header plus the message length. -/
def PreparedFill.compute_size (messageLen : Nat) : Nat :=
  PreparedFill.base_size + messageLen

/-- A typed fill description, as produced by the external message parser from
an attestation payload (`fill.source_chain()`, `fill.order_sender()`,
`fill.redeemer()`, `fill.message_to_vec()` in the source). -/
structure Fill where
  source_chain : Nat
  order_sender : List Nat
  redeemer : Nat
  redeemer_message : List Nat
deriving DecidableEq

/-- A fill VAA account: an attestation with an opaque payload and a digest
(`fill_vaa.payload()` and `fill_vaa.digest()` in the source). -/
structure FillVaa where
  payload : List Nat
  digest : List Nat
deriving DecidableEq

/-- Errors a redemption can return (Rust `Result::Err`). `finalizeFailed code`
is an error propagated from the `complete_fast_fill` CPI;
`insufficientFunds` from the system-program transfer; `reallocFailed` from
the realloc primitive. `malformedAttestation` is named in the spec's error
taxonomy but is never produced by the code (parse failure panics instead). -/
inductive RedeemError where
  | finalizeFailed (code : Nat)
  | insufficientFunds
  | reallocFailed
  | malformedAttestation
deriving DecidableEq

/-- The mutable state touched by `redeem_fast_fill`: the payer account, the
prepared-fill account (its stored value, lamport balance and data size), the
fill VAA, and the bump seeds provided by account derivation. -/
structure RedeemCtx where
  fillVaa : FillVaa
  payerKey : Nat
  payerLamports : Nat
  preparedFill : PreparedFill
  preparedFillLamports : Nat
  preparedFillDataLen : Nat
  bumpPreparedFill : Nat
  bumpCustodyToken : Nat
deriving DecidableEq

/-- External collaborators of a redemption, specified at their interfaces:
the result of the matching-engine `complete_fast_fill` CPI (`none` means it
succeeded, `some code` that it failed with that error), the attestation
payload parser (`LiquidityLayerMessage::try_from`), the rent oracle
(`Rent.minimum_balance`), and the size bound of the realloc primitive. -/
structure RedeemEnv where
  finalizeResult : Option Nat
  parse : List Nat → Option Fill
  minimumBalance : Nat → Nat
  reallocMax : Nat

/-- Outcome of a redemption: Rust `Ok` / `Err` (each with the local state as
left by the sequential execution) or a panic (Rust `unwrap` on a parse
failure aborts the whole transaction). -/
inductive RedeemResult where
  | ok (s : RedeemCtx)
  | err (e : RedeemError) (s : RedeemCtx)
  | panicked (s : RedeemCtx)
deriving DecidableEq

/-- Observable effects of a redemption, in execution order: the finalize CPI
with the VAA account passed to it, the payer-to-record lamport transfer, the
record realloc, and the single `set_inner` write of the record value. -/
inductive RedeemEv where
  | finalize (vaa : FillVaa)
  | transfer (amount : Nat)
  | realloc (size : Nat)
  | writeRecord (value : PreparedFill)
deriving DecidableEq

def RedeemEv.isFinalize : RedeemEv → Bool
  | .finalize _ => true
  | _ => false

def RedeemEv.isTransfer : RedeemEv → Bool
  | .transfer _ => true
  | _ => false

def RedeemEv.isWrite : RedeemEv → Bool
  | .writeRecord _ => true
  | _ => false

/-- The `data_len` computed in the source:
`PreparedFill::compute_size(fill.redeemer_message_len())`. -/
def data_len (fill : Fill) : Nat :=
  PreparedFill.compute_size fill.redeemer_message.length

/-- The `lamport_diff` computed in the source:
`rent.minimum_balance(data_len).saturating_sub(acc_info.lamports())`.
`Nat` subtraction is exactly `saturating_sub`. -/
def lamport_diff (env : RedeemEnv) (ctx : RedeemCtx) (fill : Fill) : Nat :=
  env.minimumBalance (data_len fill) - ctx.preparedFillLamports

/-- State after the system-program transfer of `lamport_diff` from the payer
to the prepared-fill account. -/
def afterTransfer (env : RedeemEnv) (ctx : RedeemCtx) (fill : Fill) : RedeemCtx :=
  { ctx with
    payerLamports := ctx.payerLamports - lamport_diff env ctx fill
    preparedFillLamports := ctx.preparedFillLamports + lamport_diff env ctx fill }

/-- The `PreparedFill` value written by `set_inner` in the source: digest of
the fill VAA, the two bump seeds, the redeemer / source chain / order sender /
message from the parsed fill, the payer as preparer, `fill_type = FastFill`. -/
def writtenFill (ctx : RedeemCtx) (fill : Fill) : PreparedFill :=
  { info :=
      { vaa_hash := ctx.fillVaa.digest
        bump := ctx.bumpPreparedFill
        prepared_custody_token_bump := ctx.bumpCustodyToken
        redeemer := fill.redeemer
        prepared_by := ctx.payerKey
        fill_type := FillType.FastFill
        source_chain := fill.source_chain
        order_sender := fill.order_sender }
    redeemer_message := fill.redeemer_message }

/-- Final state of a successful first-time redemption: transfer applied,
record resized to `data_len`, record value overwritten with `writtenFill`. -/
def finalCtx (env : RedeemEnv) (ctx : RedeemCtx) (fill : Fill) : RedeemCtx :=
  { afterTransfer env ctx fill with
    preparedFillDataLen := data_len fill
    preparedFill := writtenFill ctx fill }

/-- `handle_redeem_fast_fill` from the source, step by step: (1) the
`complete_fast_fill` CPI, passing `ctx.fillVaa` as `fast_fill_vaa`, with its
error propagated by `?`; (2) `LiquidityLayerMessage::try_from(payload)` with
`.unwrap()` — a parse failure panics; (3) the lamport top-up transfer, which
fails if the payer cannot cover it; (4) `realloc(data_len)`; (5) the single
`set_inner` write. Effects are recorded in the event list in execution
order. -/
def handle_redeem_fast_fill (env : RedeemEnv) (ctx : RedeemCtx) :
    RedeemResult × List RedeemEv :=
  match env.finalizeResult with
  | some code => (.err (.finalizeFailed code) ctx, [.finalize ctx.fillVaa])
  | none =>
    match env.parse ctx.fillVaa.payload with
    | none => (.panicked ctx, [.finalize ctx.fillVaa])
    | some fill =>
      if ctx.payerLamports < lamport_diff env ctx fill then
        (.err .insufficientFunds ctx, [.finalize ctx.fillVaa])
      else if env.reallocMax < data_len fill then
        (.err .reallocFailed (afterTransfer env ctx fill),
          [.finalize ctx.fillVaa, .transfer (lamport_diff env ctx fill)])
      else
        (.ok (finalCtx env ctx fill),
          [.finalize ctx.fillVaa, .transfer (lamport_diff env ctx fill),
           .realloc (data_len fill), .writeRecord (writtenFill ctx fill)])

/-- Modelled from the spec: `super::redeem_fill_noop()` (in the redeem-fill
module, not shown in the excerpt) returns success without doing anything. -/
def redeem_fill_noop (ctx : RedeemCtx) : RedeemResult × List RedeemEv :=
  (.ok ctx, [])

/-- `redeem_fast_fill` from the source: dispatch on the existing record's
`fill_type` — `Unset` runs the handler, anything else is the no-op. -/
def redeem_fast_fill (env : RedeemEnv) (ctx : RedeemCtx) :
    RedeemResult × List RedeemEv :=
  match ctx.preparedFill.info.fill_type with
  | FillType.Unset => handle_redeem_fast_fill env ctx
  | _ => redeem_fill_noop ctx

/-- Largest `u64` value. The two additions in `propose` are unchecked `u64`
additions; exceeding this bound overflows. -/
def u64max : Nat := 2 ^ 64 - 1

/-- Modelled from the spec: the `Custodian` singleton (matching-engine state
module, not shown in the excerpt) holds the protocol owner and the
monotonic `next_proposal_id` counter. -/
structure Custodian where
  owner : Nat
  next_proposal_id : Nat
deriving DecidableEq

/-- Modelled from the spec: `ProposalAction` is a closed tagged union; one
variant carries an auction-parameter update, `noneAction` stands for the
unset tag. -/
inductive ProposalAction where
  | noneAction
  | updateAuctionParameters
deriving DecidableEq

/-- The `Proposal` record created by `propose`, with the fields written by
`set_inner` in the source. -/
structure Proposal where
  id : Nat
  bump : Nat
  action : ProposalAction
  by_ : Nat
  owner : Nat
  slot_proposed_at : Nat
  slot_enact_by : Nat
  slot_enacted_at : Option Nat
deriving DecidableEq

/-- Failure of the time oracle (`Clock::get`), the only error `propose`
propagates; the spec names it `TimeUnavailable`. -/
inductive ProposeError where
  | timeUnavailable
deriving DecidableEq

/-- Outcome of `propose`: the created proposal and updated custodian, a
propagated error with the custodian untouched, or a panic from an
overflowing unchecked `u64` addition (again with the custodian carried as
the sequential execution left it). -/
inductive ProposeResult where
  | ok (proposal : Proposal) (custodian : Custodian)
  | err (e : ProposeError) (custodian : Custodian)
  | panicked (custodian : Custodian)
deriving DecidableEq

def ProposeResult.isPanic : ProposeResult → Bool
  | .panicked _ => true
  | _ => false

def ProposeResult.isErr : ProposeResult → Bool
  | .err _ _ => true
  | _ => false

/-- `propose` from the source. `clockResult` models `Clock::get().map(|c| c.slot)`,
whose error the `?` propagates before anything is written. On success the
proposal is written with `id = custodian.next_proposal_id`,
`slot_enact_by = slot_proposed_at + epoch_schedule.slots_per_epoch`, and the
custodian counter is incremented by one. Both additions are unchecked `u64`
additions, modelled as panicking past `u64max` (the workspace builds with
overflow checks; under wrapping semantics the sums would wrap instead —
either way no error is returned). -/
def propose (clockResult : Except ProposeError Nat) (custodian : Custodian)
    (by_ : Nat) (slots_per_epoch : Nat) (action : ProposalAction)
    (proposal_bump_seed : Nat) : ProposeResult :=
  match clockResult with
  | .error e => .err e custodian
  | .ok slot_proposed_at =>
    if u64max < slot_proposed_at + slots_per_epoch then .panicked custodian
    else if u64max < custodian.next_proposal_id + 1 then .panicked custodian
    else
      .ok
        { id := custodian.next_proposal_id
          bump := proposal_bump_seed
          action := action
          by_ := by_
          owner := custodian.owner
          slot_proposed_at := slot_proposed_at
          slot_enact_by := slot_proposed_at + slots_per_epoch
          slot_enacted_at := none }
        { custodian with next_proposal_id := custodian.next_proposal_id + 1 }

/-- Concrete fill used to exercise the definitions. -/
def fillX : Fill :=
  { source_chain := 23, order_sender := [7, 8], redeemer := 9
    redeemer_message := [1, 2, 3] }

/-- Concrete fill VAA whose payload parses to `fillX`. -/
def vaaX : FillVaa := { payload := [42], digest := [5, 6] }

/-- Concrete environment: finalize succeeds, the parser recognises exactly the
payload of `vaaX`, rent is two lamports per byte, realloc allows 1000 bytes. -/
def envX : RedeemEnv :=
  { finalizeResult := none
    parse := fun p => if p = [42] then some fillX else none
    minimumBalance := fun n => 2 * n
    reallocMax := 1000 }

/-- An empty, not-yet-processed prepared-fill value (`fill_type = Unset`). -/
def pfUnset : PreparedFill :=
  { info :=
      { vaa_hash := [], bump := 0, prepared_custody_token_bump := 0
        redeemer := 0, prepared_by := 0, fill_type := FillType.Unset
        source_chain := 0, order_sender := [] }
    redeemer_message := [] }

/-- Concrete first-time redemption state. -/
def ctxX : RedeemCtx :=
  { fillVaa := vaaX, payerKey := 77, payerLamports := 500
    preparedFill := pfUnset, preparedFillLamports := 10
    preparedFillDataLen := 0, bumpPreparedFill := 254, bumpCustodyToken := 253 }

/-- Concrete already-processed state: same as `ctxX` but with a record whose
`fill_type` is already `FastFill`. -/
def ctxDone : RedeemCtx :=
  { ctxX with
    preparedFill :=
      { pfUnset with info := { pfUnset.info with fill_type := FillType.FastFill } } }

/-- Environment in which the finalize CPI fails with error code 6. -/
def envFinFail : RedeemEnv := { envX with finalizeResult := some 6 }

/-- Environment whose parser rejects every payload. -/
def envNoParse : RedeemEnv := { envX with parse := fun _ => none }

/-- Inversion of a successful first-time redemption: it must have passed the
finalize CPI, parsed the payload to some fill, covered the lamport top-up,
fitted under the realloc bound, and produced exactly the final state and the
four-event trace of the success path. -/
theorem redeem_ok_inv (env : RedeemEnv) (ctx ctx' : RedeemCtx) (evs : List RedeemEv)
    (hT : ctx.preparedFill.info.fill_type = FillType.Unset)
    (hr : redeem_fast_fill env ctx = (RedeemResult.ok ctx', evs)) :
    ∃ fill, env.finalizeResult = none ∧
      env.parse ctx.fillVaa.payload = some fill ∧
      lamport_diff env ctx fill ≤ ctx.payerLamports ∧
      data_len fill ≤ env.reallocMax ∧
      ctx' = finalCtx env ctx fill ∧
      evs = [RedeemEv.finalize ctx.fillVaa,
             RedeemEv.transfer (lamport_diff env ctx fill),
             RedeemEv.realloc (data_len fill),
             RedeemEv.writeRecord (writtenFill ctx fill)] := by
  cases hfin : env.finalizeResult with
  | some code =>
    simp [redeem_fast_fill, handle_redeem_fast_fill, hT, hfin] at hr
  | none =>
    cases hp : env.parse ctx.fillVaa.payload with
    | none =>
      simp [redeem_fast_fill, handle_redeem_fast_fill, hT, hfin, hp] at hr
    | some fill =>
      simp only [redeem_fast_fill, handle_redeem_fast_fill, hT, hfin, hp] at hr
      split at hr
      · simp at hr
      · split at hr
        · simp at hr
        · next h1 h2 =>
          simp only [Prod.mk.injEq, RedeemResult.ok.injEq] at hr
          exact ⟨fill, rfl, rfl, Nat.le_of_not_lt h1, Nat.le_of_not_lt h2,
            hr.1.symm, hr.2.symm⟩

/-- Event trace of the successful redemption of `ctxX` under `envX`. -/
def evsXSuccess : List RedeemEv :=
  [RedeemEv.finalize ctxX.fillVaa,
   RedeemEv.transfer (lamport_diff envX ctxX fillX),
   RedeemEv.realloc (data_len fillX),
   RedeemEv.writeRecord (writtenFill ctxX fillX)]

/-- Claim C1: when the prepared-fill record's `fill_type` is not `Unset`,
`redeem_fast_fill` returns success, performs no finalize CPI, no transfer
and no write, and leaves the whole local state (record fields, size and
balances) unchanged: the result is `ok` with the input state and an empty
event trace. -/
theorem redeem_fast_fill_already_processed_noop (env : RedeemEnv) (ctx : RedeemCtx)
    (hT : ctx.preparedFill.info.fill_type ≠ FillType.Unset) :
    redeem_fast_fill env ctx = (RedeemResult.ok ctx, []) := by
  cases hft : ctx.preparedFill.info.fill_type with
  | Unset => exact absurd hft hT
  | WormholeCctpDeposit => simp [redeem_fast_fill, redeem_fill_noop, hft]
  | FastFill => simp [redeem_fast_fill, redeem_fill_noop, hft]

/-- Witness for C1 at the concrete already-processed state `ctxDone`. -/
theorem redeem_fast_fill_already_processed_noop_witness :
    redeem_fast_fill envX ctxDone = (RedeemResult.ok ctxDone, []) :=
  redeem_fast_fill_already_processed_noop envX ctxDone (by decide)

/-- Claim C2: on a first-time redemption (`fill_type = Unset`), if the
`complete_fast_fill` finalize CPI fails, `redeem_fast_fill` returns that
error with the local state untouched; the only event is the (failed)
finalize invocation — no transfer and no record write occurred. -/
theorem redeem_fast_fill_finalize_failure_no_writes (env : RedeemEnv) (ctx : RedeemCtx)
    (code : Nat) (hT : ctx.preparedFill.info.fill_type = FillType.Unset)
    (hfin : env.finalizeResult = some code) :
    redeem_fast_fill env ctx =
      (RedeemResult.err (RedeemError.finalizeFailed code) ctx,
       [RedeemEv.finalize ctx.fillVaa]) := by
  simp [redeem_fast_fill, handle_redeem_fast_fill, hT, hfin]

/-- Witness for C2 at the concrete state `ctxX` under `envFinFail`. -/
theorem redeem_fast_fill_finalize_failure_no_writes_witness :
    redeem_fast_fill envFinFail ctxX =
      (RedeemResult.err (RedeemError.finalizeFailed 6) ctxX,
       [RedeemEv.finalize ctxX.fillVaa]) :=
  redeem_fast_fill_finalize_failure_no_writes envFinFail ctxX 6 rfl rfl

/-- Counterexample to claim C4 as stated: at a concrete first-time redemption
whose payload the parser rejects, the code panics (the `unwrap` in the
source aborts the transaction); it does not return the recoverable error
`MalformedAttestation` — the outcome is `panicked`, which is not an `err`. -/
theorem redeem_fast_fill_parse_failure_is_panic_counterexample :
    redeem_fast_fill envNoParse ctxX =
      (RedeemResult.panicked ctxX, [RedeemEv.finalize ctxX.fillVaa]) ∧
    RedeemResult.panicked ctxX ≠
      RedeemResult.err RedeemError.malformedAttestation ctxX :=
  ⟨by decide, by decide⟩

/-- Claim C4 (amended): on a first-time redemption whose attestation payload
cannot be parsed (after a successful finalize CPI, which runs first), the
operation panics — aborting the whole transaction — rather than returning a
`MalformedAttestation` error; the local state at the panic is unchanged, so
no state change is observable. -/
theorem redeem_fast_fill_parse_failure_panics (env : RedeemEnv) (ctx : RedeemCtx)
    (hT : ctx.preparedFill.info.fill_type = FillType.Unset)
    (hfin : env.finalizeResult = none)
    (hp : env.parse ctx.fillVaa.payload = none) :
    redeem_fast_fill env ctx =
      (RedeemResult.panicked ctx, [RedeemEv.finalize ctx.fillVaa]) := by
  simp [redeem_fast_fill, handle_redeem_fast_fill, hT, hfin, hp]

/-- Witness for the amended C4 at the concrete state `ctxX` under `envNoParse`. -/
theorem redeem_fast_fill_parse_failure_panics_witness :
    redeem_fast_fill envNoParse ctxX =
      (RedeemResult.panicked ctxX, [RedeemEv.finalize ctxX.fillVaa]) :=
  redeem_fast_fill_parse_failure_panics envNoParse ctxX rfl rfl rfl

/-- Claim C5: on a successful first-time redemption, exactly one transfer is
performed and its amount is `lamport_diff`: zero when the record's balance
already meets `minimum_balance(new_size)`, and exactly the shortfall
(amount + current balance = minimum balance) otherwise. -/
theorem redeem_fast_fill_topup_exact (env : RedeemEnv) (ctx ctx' : RedeemCtx)
    (evs : List RedeemEv) (fill : Fill)
    (hT : ctx.preparedFill.info.fill_type = FillType.Unset)
    (hp : env.parse ctx.fillVaa.payload = some fill)
    (hr : redeem_fast_fill env ctx = (RedeemResult.ok ctx', evs)) :
    evs.filter RedeemEv.isTransfer = [RedeemEv.transfer (lamport_diff env ctx fill)] ∧
    (env.minimumBalance (data_len fill) ≤ ctx.preparedFillLamports →
      lamport_diff env ctx fill = 0) ∧
    (ctx.preparedFillLamports ≤ env.minimumBalance (data_len fill) →
      lamport_diff env ctx fill + ctx.preparedFillLamports =
        env.minimumBalance (data_len fill)) := by
  obtain ⟨fill', -, hp', -, -, -, hevs⟩ := redeem_ok_inv env ctx ctx' evs hT hr
  rw [hp] at hp'
  obtain rfl := Option.some.inj hp'
  refine ⟨?_, ?_, ?_⟩
  · rw [hevs]; simp [List.filter, RedeemEv.isTransfer]
  · intro h; simp only [lamport_diff]; omega
  · intro h; simp only [lamport_diff]; omega

/-- Witness for C5 at the concrete success `envX`, `ctxX`. -/
theorem redeem_fast_fill_topup_exact_witness :
    evsXSuccess.filter RedeemEv.isTransfer =
      [RedeemEv.transfer (lamport_diff envX ctxX fillX)] ∧
    (envX.minimumBalance (data_len fillX) ≤ ctxX.preparedFillLamports →
      lamport_diff envX ctxX fillX = 0) ∧
    (ctxX.preparedFillLamports ≤ envX.minimumBalance (data_len fillX) →
      lamport_diff envX ctxX fillX + ctxX.preparedFillLamports =
        envX.minimumBalance (data_len fillX)) :=
  redeem_fast_fill_topup_exact envX ctxX (finalCtx envX ctxX fillX) evsXSuccess fillX
    rfl rfl rfl

/-- Claim C6: on a successful first-time redemption, the record's storage size
is set to exactly `PreparedFill.compute_size` of the redeemer-message
length, and in the event trace the realloc to that size (position 2)
precedes the write of the record value (position 3). -/
theorem redeem_fast_fill_resize_exact_before_write (env : RedeemEnv)
    (ctx ctx' : RedeemCtx) (evs : List RedeemEv) (fill : Fill)
    (hT : ctx.preparedFill.info.fill_type = FillType.Unset)
    (hp : env.parse ctx.fillVaa.payload = some fill)
    (hr : redeem_fast_fill env ctx = (RedeemResult.ok ctx', evs)) :
    ctx'.preparedFillDataLen =
      PreparedFill.compute_size fill.redeemer_message.length ∧
    evs[2]? = some (RedeemEv.realloc ctx'.preparedFillDataLen) ∧
    evs[3]? = some (RedeemEv.writeRecord ctx'.preparedFill) := by
  obtain ⟨fill', -, hp', -, -, hctx, hevs⟩ := redeem_ok_inv env ctx ctx' evs hT hr
  rw [hp] at hp'
  obtain rfl := Option.some.inj hp'
  subst hctx
  refine ⟨rfl, ?_, ?_⟩
  · rw [hevs]; rfl
  · rw [hevs]; rfl

/-- Witness for C6 at the concrete success `envX`, `ctxX`. -/
theorem redeem_fast_fill_resize_exact_before_write_witness :
    (finalCtx envX ctxX fillX).preparedFillDataLen =
      PreparedFill.compute_size fillX.redeemer_message.length ∧
    evsXSuccess[2]? =
      some (RedeemEv.realloc (finalCtx envX ctxX fillX).preparedFillDataLen) ∧
    evsXSuccess[3]? =
      some (RedeemEv.writeRecord (finalCtx envX ctxX fillX).preparedFill) :=
  redeem_fast_fill_resize_exact_before_write envX ctxX (finalCtx envX ctxX fillX)
    evsXSuccess fillX rfl rfl rfl

/-- Claim C7: on a successful first-time redemption, the record is populated by
a single write whose value carries the attestation digest, the two bump
seeds, the redeemer, source chain and order sender of the parsed fill, the
payer as preparer, `fill_type = FastFill`, and the fill's message bytes
verbatim; the trace contains exactly one write event, carrying that full
value. -/
theorem redeem_fast_fill_single_full_write (env : RedeemEnv)
    (ctx ctx' : RedeemCtx) (evs : List RedeemEv) (fill : Fill)
    (hT : ctx.preparedFill.info.fill_type = FillType.Unset)
    (hp : env.parse ctx.fillVaa.payload = some fill)
    (hr : redeem_fast_fill env ctx = (RedeemResult.ok ctx', evs)) :
    ctx'.preparedFill = writtenFill ctx fill ∧
    writtenFill ctx fill =
      { info :=
          { vaa_hash := ctx.fillVaa.digest
            bump := ctx.bumpPreparedFill
            prepared_custody_token_bump := ctx.bumpCustodyToken
            redeemer := fill.redeemer
            prepared_by := ctx.payerKey
            fill_type := FillType.FastFill
            source_chain := fill.source_chain
            order_sender := fill.order_sender }
        redeemer_message := fill.redeemer_message } ∧
    evs.filter RedeemEv.isWrite = [RedeemEv.writeRecord (writtenFill ctx fill)] := by
  obtain ⟨fill', -, hp', -, -, hctx, hevs⟩ := redeem_ok_inv env ctx ctx' evs hT hr
  rw [hp] at hp'
  obtain rfl := Option.some.inj hp'
  subst hctx
  refine ⟨rfl, rfl, ?_⟩
  rw [hevs]; simp [List.filter, RedeemEv.isWrite]

/-- Witness for C7 at the concrete success `envX`, `ctxX`. -/
theorem redeem_fast_fill_single_full_write_witness :
    (finalCtx envX ctxX fillX).preparedFill = writtenFill ctxX fillX ∧
    writtenFill ctxX fillX =
      { info :=
          { vaa_hash := ctxX.fillVaa.digest
            bump := ctxX.bumpPreparedFill
            prepared_custody_token_bump := ctxX.bumpCustodyToken
            redeemer := fillX.redeemer
            prepared_by := ctxX.payerKey
            fill_type := FillType.FastFill
            source_chain := fillX.source_chain
            order_sender := fillX.order_sender }
        redeemer_message := fillX.redeemer_message } ∧
    evsXSuccess.filter RedeemEv.isWrite =
      [RedeemEv.writeRecord (writtenFill ctxX fillX)] :=
  redeem_fast_fill_single_full_write envX ctxX (finalCtx envX ctxX fillX)
    evsXSuccess fillX rfl rfl rfl

/-- Claim C10: on a successful first-time redemption, the finalize CPI is
invoked exactly once and the VAA account passed to it is `ctx.fillVaa` —
the very account whose digest ends up as the written record's `vaa_hash` —
so the locally recorded digest and the globally finalized attestation agree
within one redemption. -/
theorem redeem_fast_fill_digest_matches_finalized_vaa (env : RedeemEnv)
    (ctx ctx' : RedeemCtx) (evs : List RedeemEv)
    (hT : ctx.preparedFill.info.fill_type = FillType.Unset)
    (hr : redeem_fast_fill env ctx = (RedeemResult.ok ctx', evs)) :
    evs.filter RedeemEv.isFinalize = [RedeemEv.finalize ctx.fillVaa] ∧
    ctx'.preparedFill.info.vaa_hash = ctx.fillVaa.digest := by
  obtain ⟨fill, -, -, -, -, hctx, hevs⟩ := redeem_ok_inv env ctx ctx' evs hT hr
  subst hctx
  constructor
  · rw [hevs]; simp [List.filter, RedeemEv.isFinalize]
  · rfl

/-- Witness for C10 at the concrete success `envX`, `ctxX`. -/
theorem redeem_fast_fill_digest_matches_finalized_vaa_witness :
    evsXSuccess.filter RedeemEv.isFinalize = [RedeemEv.finalize ctxX.fillVaa] ∧
    (finalCtx envX ctxX fillX).preparedFill.info.vaa_hash = ctxX.fillVaa.digest :=
  redeem_fast_fill_digest_matches_finalized_vaa envX ctxX (finalCtx envX ctxX fillX)
    evsXSuccess rfl rfl

/-- Claim C3: a successful `propose` with pre-call counter `k` and slot `now`
creates a proposal with `id = k`, `owner = custodian.owner`,
`slot_proposed_at = now`, `slot_enact_by = now + slots_per_epoch`,
`slot_enacted_at = none`, and bumps the counter to `k + 1`. The two
hypotheses are the `u64`-range preconditions under which the unchecked
additions do not overflow. -/
theorem propose_creates_proposal_and_upticks (now spe : Nat) (custodian : Custodian)
    (by_ : Nat) (action : ProposalAction) (bumpSeed : Nat)
    (h1 : now + spe ≤ u64max) (h2 : custodian.next_proposal_id + 1 ≤ u64max) :
    propose (Except.ok now) custodian by_ spe action bumpSeed =
      ProposeResult.ok
        { id := custodian.next_proposal_id
          bump := bumpSeed
          action := action
          by_ := by_
          owner := custodian.owner
          slot_proposed_at := now
          slot_enact_by := now + spe
          slot_enacted_at := none }
        { custodian with next_proposal_id := custodian.next_proposal_id + 1 } := by
  simp [propose, Nat.not_lt.mpr h1, Nat.not_lt.mpr h2]

/-- Witness for C3: the spec's concrete scenario — counter 5, slot 1000,
432000 slots per epoch — yields proposal id 5, window 1000 to 433000, no
enactment slot, and counter 6. -/
theorem propose_creates_proposal_and_upticks_witness :
    propose (Except.ok 1000) { owner := 3, next_proposal_id := 5 } 9 432000
        ProposalAction.updateAuctionParameters 255 =
      ProposeResult.ok
        { id := 5, bump := 255, action := ProposalAction.updateAuctionParameters
          by_ := 9, owner := 3, slot_proposed_at := 1000
          slot_enact_by := 433000, slot_enacted_at := none }
        { owner := 3, next_proposal_id := 6 } :=
  propose_creates_proposal_and_upticks 1000 432000 { owner := 3, next_proposal_id := 5 }
    9 ProposalAction.updateAuctionParameters 255 (by decide) (by decide)

/-- Claim C8: when the time oracle cannot be read, `propose` propagates the
error and performs no state change at all: the custodian (and so its
counter) is returned untouched and no proposal value is produced. -/
theorem propose_time_unavailable_no_state_change (e : ProposeError)
    (custodian : Custodian) (by_ spe : Nat) (action : ProposalAction)
    (bumpSeed : Nat) :
    propose (Except.error e) custodian by_ spe action bumpSeed =
      ProposeResult.err e custodian := by
  simp [propose]

/-- Claim C9: `propose` is panic-free whenever the two unchecked `u64`
additions stay in range, and on inputs violating either precondition
(slot sum past `u64max`, or counter at `u64max`) the addition overflows —
a panic in this model — rather than returning an error. -/
theorem propose_unchecked_additions_overflow :
    (∀ (now spe : Nat) (c : Custodian) (b : Nat) (a : ProposalAction) (bmp : Nat),
        now + spe ≤ u64max → c.next_proposal_id + 1 ≤ u64max →
        (propose (Except.ok now) c b spe a bmp).isPanic = false) ∧
    (propose (Except.ok u64max) { owner := 0, next_proposal_id := 0 } 0 1
        ProposalAction.noneAction 0).isPanic = true ∧
    (propose (Except.ok 0) { owner := 0, next_proposal_id := u64max } 0 0
        ProposalAction.noneAction 0).isPanic = true ∧
    (propose (Except.ok u64max) { owner := 0, next_proposal_id := 0 } 0 1
        ProposalAction.noneAction 0).isErr = false ∧
    (propose (Except.ok 0) { owner := 0, next_proposal_id := u64max } 0 0
        ProposalAction.noneAction 0).isErr = false := by
  refine ⟨?_, by decide, by decide, by decide, by decide⟩
  intro now spe c b a bmp h1 h2
  simp [propose, ProposeResult.isPanic, Nat.not_lt.mpr h1, Nat.not_lt.mpr h2]

/-- Witness for C9's universal part at the spec's concrete scenario. -/
theorem propose_unchecked_additions_overflow_witness :
    (propose (Except.ok 1000) { owner := 3, next_proposal_id := 5 } 9 432000
        ProposalAction.updateAuctionParameters 255).isPanic = false :=
  propose_unchecked_additions_overflow.1 1000 432000
    { owner := 3, next_proposal_id := 5 } 9 ProposalAction.updateAuctionParameters 255
    (by decide) (by decide)

end LiquidityLayer
